import Mathlib

/-!
# Verification of the session-multiplexing / process-bridging layer

A shallow embedding, in Lean, of the core logic of this repository:

* the Path Resolver (`resolvePath` in `src/src/tools.ts`, `resolveToContainer`
  in `src/src/session.ts` — textually identical bodies), modelled over
  `List Char` (JS strings are modelled as lists of characters);
* the Session State Store (`getEffectivePath` in `src/src/session.ts` and
  `src/src/tools.ts`);
* the Command Adapter tool sets (`src/src/tools.ts` and the `backlogTools`
  toolset of the repository's Mastra-hub variant), including the
  `escapeCmd` argument escaping and the `checkInit` precondition check;
* the `StdioBridge` class (spawn, handshake, id allocation, buffer
  splitting, reply correlation), modelled as a state machine driven by
  the events the Node event loop can deliver to the handlers the source
  actually installs.

External collaborators (the `child_process` module, `fs`, `path`,
`JSON.parse`, the wrapped `backlog` CLI) are modelled as explicit
parameters/environment records, never reimplemented.
-/

/-! ## Path Resolver

Source (`src/src/tools.ts`, identically `src/src/session.ts` and the
per-session server variant):

```
const HOST_ROOT = process.env.HOST_ROOT || "/home/ferreirase/Documents";
const CONTAINER_DATA = "/data";
function resolvePath(inputPath: string): string {
  if (inputPath.startsWith(HOST_ROOT)) {
    return inputPath.replace(HOST_ROOT, CONTAINER_DATA);
  }
  return inputPath;
}
```

JS `String.prototype.replace` with a string pattern replaces the *first*
occurrence of the pattern only; `replaceFirst` models that builtin.
-/

/-- Model of JS `s.replace(search, repl)` with a string `search` pattern:
replaces the first occurrence of `search` in `s`, or returns `s` unchanged
when `search` does not occur.  (JS strings are modelled as `List Char`.) -/
def replaceFirst (search repl : List Char) : List Char → List Char
  | [] => if search.isEmpty then repl else []
  | c :: rest =>
    if search.isPrefixOf (c :: rest) then repl ++ (c :: rest).drop search.length
    else c :: replaceFirst search repl rest

/-- `resolvePath` / `SessionManager.resolveToContainer`: if the input starts
with the host-root prefix, replace (the first occurrence of) that prefix by
the container root, else return the input unchanged.  `hostRoot` and
`containerData` are the configured `HOST_ROOT` / `CONTAINER_DATA` values. -/
def resolveToContainer (hostRoot containerData : List Char) (p : List Char) : List Char :=
  if hostRoot.isPrefixOf p then replaceFirst hostRoot containerData p else p

/-- The default `HOST_ROOT` configuration value
(`process.env.HOST_ROOT || "/home/ferreirase/Documents"`). -/
def HOST_ROOT : List Char := "/home/ferreirase/Documents".data

/-- The (fixed) `CONTAINER_DATA` configuration value. -/
def CONTAINER_DATA : List Char := "/data".data

/-- The path resolver at the shipped configuration. -/
def resolveDefault (p : List Char) : List Char :=
  resolveToContainer HOST_ROOT CONTAINER_DATA p

lemma replaceFirst_of_isPrefixOf (search repl : List Char) :
    ∀ p : List Char, search.isPrefixOf p →
      replaceFirst search repl p = repl ++ p.drop search.length := by
  intro p hp
  cases p with
  | nil =>
    have hs : search = [] := by
      simpa [List.isPrefixOf_iff_prefix] using hp
    simp [replaceFirst, hs]
  | cons c rest =>
    simp [replaceFirst, hp]

lemma resolveToContainer_eq (hostRoot containerData p : List Char) :
    resolveToContainer hostRoot containerData p =
      if hostRoot.isPrefixOf p then containerData ++ p.drop hostRoot.length else p := by
  by_cases h : hostRoot.isPrefixOf p
  · simp [resolveToContainer, h, replaceFirst_of_isPrefixOf]
  · simp [resolveToContainer, h]

/-- **C7.** The Path Resolver is a pure total function: for every
configured host-root prefix, container root and input path, if the input
starts with the host-root prefix the result is exactly the container root
followed by the input with that leading prefix removed; otherwise the input
is returned unchanged.  No normalization of `..`, symlinks or trailing
slashes takes place (the result is characterized purely by literal prefix
matching) and there is no failure mode (the function is total). -/
theorem resolveToContainer_spec (hostRoot containerData p : List Char) :
    resolveToContainer hostRoot containerData p =
      if hostRoot.isPrefixOf p then containerData ++ p.drop hostRoot.length else p :=
  resolveToContainer_eq hostRoot containerData p

lemma host_not_prefix_of_container_append (x : List Char) :
    HOST_ROOT.isPrefixOf (CONTAINER_DATA ++ x) = false := rfl

/-- **C8.** Path resolution (at the shipped configuration) is idempotent:
for every path `p`, `resolveDefault (resolveDefault p) = resolveDefault p`;
in particular an already container-rooted result is returned unchanged. -/
theorem resolveDefault_idem (p : List Char) :
    resolveDefault (resolveDefault p) = resolveDefault p := by
  unfold resolveDefault
  rw [resolveToContainer_eq, resolveToContainer_eq]
  by_cases h : HOST_ROOT.isPrefixOf p
  · simp [h, host_not_prefix_of_container_append]
  · simp [h]

/-! ## Session State Store

Source (`src/src/session.ts`; `src/src/tools.ts` contains a textually
identical free-function variant over a module-local `sessionPaths` map —
this single embedding covers both):

```
const DEFAULT_PROJECT_PATH = process.env.DEFAULT_PROJECT_PATH || HOST_ROOT;
private paths = new Map<string, string>();
getEffectivePath(sessionId: string, providedPath?: string): string {
  if (providedPath) {
    this.paths.set(sessionId, providedPath);
  }
  const path = this.paths.get(sessionId) || DEFAULT_PROJECT_PATH;
  return this.resolveToContainer(path);
}
```

The `Map<string, string>` is modelled extensionally as a function
`String → Option String`; `if (providedPath)` is JS truthiness: the guard
is taken exactly when `providedPath` is present *and* non-empty.
-/

/-- The session-id-keyed sticky-path map (`private paths = new Map()`). -/
abbrev SessionPaths := String → Option String

/-- A fresh, empty `paths` map. -/
def emptyPaths : SessionPaths := fun _ => none

/-- `this.paths.set(sessionId, providedPath)`. -/
def setPath (st : SessionPaths) (sid p : String) : SessionPaths :=
  fun k => if k = sid then some p else st k

/-- `DEFAULT_PROJECT_PATH = process.env.DEFAULT_PROJECT_PATH || HOST_ROOT`
(modelled at the default configuration, where it falls back to `HOST_ROOT`). -/
def DEFAULT_PROJECT_PATH : String := ⟨HOST_ROOT⟩

/-- The path resolver on JS strings (wrapper of `resolveDefault`). -/
def resolvePathS (p : String) : String := ⟨resolveDefault p.data⟩

/-- `SessionManager.getEffectivePath` (= `getEffectivePath` of
`src/src/tools.ts`): sticky write of a truthy `providedPath`, then lookup
with fallback to the configured default, then Path-Resolver translation.
Returns the resolved path together with the updated map (the JS method
mutates `this.paths` in place). -/
def getEffectivePath (st : SessionPaths) (sessionId : String)
    (providedPath : Option String) : String × SessionPaths :=
  let st' := match providedPath with
    | some p => if p = "" then st else setPath st sessionId p
    | none => st
  let path := (st' sessionId).getD DEFAULT_PROJECT_PATH
  (resolvePathS path, st')

/-- Running a sequence of `getEffectivePath` calls (session id, optional
provided path), threading the map through. -/
def applyCalls (st : SessionPaths) : List (String × Option String) → SessionPaths
  | [] => st
  | c :: rest => applyCalls (getEffectivePath st c.1 c.2).2 rest

/-- A call sequence never supplies a truthy path for session `S`. -/
def noOverwrite (S : String) (cs : List (String × Option String)) : Prop :=
  ∀ c ∈ cs, c.1 = S → c.2 = none ∨ c.2 = some ""

instance (S : String) (cs : List (String × Option String)) :
    Decidable (noOverwrite S cs) := by
  unfold noOverwrite; infer_instance

lemma applyCalls_stable (S : String) :
    ∀ (cs : List (String × Option String)) (st : SessionPaths),
      noOverwrite S cs → applyCalls st cs S = st S := by
  intro cs
  induction cs with
  | nil => intro st _; rfl
  | cons c rest ih =>
    intro st hno
    have hrest : noOverwrite S rest := fun d hd => hno d (List.mem_cons_of_mem _ hd)
    have hc := hno c (List.mem_cons_self _ _)
    rcases c with ⟨sid, q⟩
    rw [applyCalls, ih _ hrest]
    show (getEffectivePath st sid q).2 S = st S
    by_cases hsid : sid = S
    · have hq := hc hsid
      cases q with
      | none => rfl
      | some p =>
        have hp : p = "" := by
          rcases hq with h | h
          · exact absurd h (by simp)
          · exact Option.some.inj h
        simp [getEffectivePath, hp]
    · cases q with
      | none => rfl
      | some p =>
        by_cases hp : p = ""
        · simp [getEffectivePath, hp]
        · simp [getEffectivePath, hp, setPath,
            show ¬S = sid from fun h => hsid h.symm]

/-- **C4.** Sticky per-session working directory: after
`getEffectivePath(S, P)` with a non-empty `P`, every later
`getEffectivePath(S)` without a path argument returns the Path-Resolver
translation of `P`, however many intervening calls occur, as long as none
of them supplies a (truthy) path for `S`; and if no truthy path was ever
supplied for `S` (starting from a fresh map), `getEffectivePath(S)`
returns the translation of the configured default path. -/
theorem getEffectivePath_sticky (st : SessionPaths) (S P : String)
    (hP : P ≠ "") (cs : List (String × Option String)) (hcs : noOverwrite S cs) :
    (getEffectivePath
        (applyCalls (getEffectivePath st S (some P)).2 cs) S none).1 =
      resolvePathS P ∧
    (getEffectivePath (applyCalls emptyPaths cs) S none).1 =
      resolvePathS DEFAULT_PROJECT_PATH := by
  constructor
  · have h1 : (getEffectivePath st S (some P)).2 S = some P := by
      simp [getEffectivePath, hP, setPath]
    show resolvePathS
        ((applyCalls (getEffectivePath st S (some P)).2 cs S).getD
          DEFAULT_PROJECT_PATH) = resolvePathS P
    rw [applyCalls_stable S cs _ hcs, h1]
    rfl
  · show resolvePathS
        ((applyCalls emptyPaths cs S).getD DEFAULT_PROJECT_PATH) =
      resolvePathS DEFAULT_PROJECT_PATH
    rw [applyCalls_stable S cs _ hcs]
    rfl

/-- Witness for C4 at concrete inputs: session `"s1"` stores
`/home/ferreirase/Documents/proj`, an intervening call for another session
and a pathless call for `"s1"` do not disturb it, and the final pathless
call returns the container translation `/data/proj`; a fresh map resolves
to the translated default. -/
theorem getEffectivePath_sticky_witness :
    ("/home/ferreirase/Documents/proj" ≠ "") ∧
    noOverwrite "s1" [("s2", some "/tmp/x"), ("s1", none)] ∧
    ((getEffectivePath
        (applyCalls
          (getEffectivePath emptyPaths "s1"
            (some "/home/ferreirase/Documents/proj")).2
          [("s2", some "/tmp/x"), ("s1", none)]) "s1" none).1 =
      resolvePathS "/home/ferreirase/Documents/proj" ∧
    (getEffectivePath
        (applyCalls emptyPaths [("s2", some "/tmp/x"), ("s1", none)])
        "s1" none).1 =
      resolvePathS DEFAULT_PROJECT_PATH) :=
  ⟨by decide, by decide,
    getEffectivePath_sticky emptyPaths "s1" "/home/ferreirase/Documents/proj"
      (by decide) [("s2", some "/tmp/x"), ("s1", none)] (by decide)⟩

/-- **C10.** An empty-string `providedPath` is falsy in JS, so
`getEffectivePath(S, "")` behaves exactly like `getEffectivePath(S)`:
the stored sticky path is not overwritten, no entry is created, and the
result is the resolution of the stored path or of the configured default. -/
theorem getEffectivePath_empty_path (st : SessionPaths) (S : String) :
    getEffectivePath st S (some "") = getEffectivePath st S none := rfl

/-! ## Command Adapter argument escaping

Source (`src/src/tools.ts` line 38; textually identical in the Mastra-hub
toolset and the per-session server variant):

```
const escapeCmd = (val: string) => `"${val.replace(/"/g, '\\"')}"`;
```

The built command line is run through Node's `exec`, i.e. handed to
`/bin/sh -c`.  To state what the external program *receives*, `shParse`
models POSIX shell processing of one word: double-quote regions,
backslash escaping outside quotes, and — inside double quotes — the rule
that a backslash is an escape character exactly before `"`, `\`, `$` and
backquote, and is otherwise kept literally.  Parameter/command expansion
is not modelled: `$` and backquote are treated as literal characters, so
the model speaks only to quoting and word termination (the spec itself
notes that metacharacters other than quotes are not neutralized).
`shParse inDQ s` returns `some v` when the whole of `s` forms a single
word with literal value `v` (`inDQ` says whether we start inside a
double-quote region); it returns `none` when the word ends prematurely
(an unquoted blank would split off a second field) or a quote is left
unterminated. -/

/-- The backquote character (written via its code point to keep the file
free of stray backquotes). -/
def backquoteChar : Char := Char.ofNat 96

/-- POSIX-style parse of one shell word (no expansions; see section
comment). -/
def shParse : Bool → List Char → Option (List Char)
  | false, [] => some []
  | true, [] => none
  | true, c :: rest =>
    if c = '"' then shParse false rest
    else if c = '\\' then
      match rest with
      | [] => none
      | d :: rest₂ =>
        if d = '"' ∨ d = '\\' ∨ d = '$' ∨ d = backquoteChar then
          (shParse true rest₂).map (d :: ·)
        else
          (shParse true rest₂).map (fun t => '\\' :: d :: t)
    else (shParse true rest).map (c :: ·)
  | false, c :: rest =>
    if c = '"' then shParse true rest
    else if c = '\\' then
      match rest with
      | [] => none
      | d :: rest₂ => (shParse false rest₂).map (d :: ·)
    else if c = ' ' ∨ c = '\t' then none
    else (shParse false rest).map (c :: ·)

/-- `val.replace(/"/g, '\\"')`: every double quote becomes backslash,
double quote. -/
def jsReplaceQuotes : List Char → List Char
  | [] => []
  | c :: rest =>
    if c = '"' then '\\' :: '"' :: jsReplaceQuotes rest
    else c :: jsReplaceQuotes rest

/-- `escapeCmd` on the `List Char` model of JS strings: wrap in double
quotes, escaping each embedded double quote. -/
def escapeCmdL (val : List Char) : List Char :=
  '"' :: jsReplaceQuotes val ++ ['"']

/-- `escapeCmd` as it appears in the source (on JS strings). -/
def escapeCmd (val : String) : String := ⟨escapeCmdL val.data⟩

lemma shParse_true_escaped (val : List Char) (hbs : '\\' ∉ val) :
    shParse true (jsReplaceQuotes val ++ ['"']) = some val := by
  induction val with
  | nil => rfl
  | cons c rest ih =>
    have hc : c ≠ '\\' := fun h => hbs (h ▸ List.mem_cons_self c rest)
    have hrest : '\\' ∉ rest := fun h => hbs (List.mem_cons_of_mem c h)
    by_cases hq : c = '"'
    · subst hq
      simp only [jsReplaceQuotes, if_pos rfl, List.cons_append]
      rw [shParse.eq_def]
      simp [ih hrest]
    · simp only [jsReplaceQuotes, if_neg hq, List.cons_append]
      rw [shParse.eq_def]
      simp [hq, hc, ih hrest]

/-- **C5 counterexample.** The claim fails at the concrete argument value
`\"` (backslash, double quote): this value contains an embedded double
quote, yet `escapeCmd` produces `"\\""`, in which the `\\` collapses to a
backslash and the quoted region is closed prematurely by the escaped-away
quote, leaving a dangling quote — the shell word does not parse back to
the literal value (here: to any complete word at all). -/
theorem escapeCmd_backslash_quote_counterexample :
    ('"' ∈ ['\\', '"']) ∧
      shParse false (escapeCmdL ['\\', '"']) = none ∧
      shParse false (escapeCmdL ['\\', '"']) ≠ some ['\\', '"'] := by
  decide

/-- **C5 (amended).** For every string argument value that contains a
double quote but no backslash, `escapeCmd`'s escaping is faithful: the
produced token parses (as a single POSIX shell word, expansions aside)
back to exactly the literal original value, including its quote
characters, with no premature termination.  (With an embedded backslash
the property can fail, as the counterexample shows.) -/
theorem escapeCmd_roundtrip (val : List Char) (hbs : '\\' ∉ val) :
    shParse false (escapeCmdL val) = some val := by
  show shParse false ('"' :: (jsReplaceQuotes val ++ ['"'])) = some val
  rw [shParse.eq_def]
  simp [shParse_true_escaped val hbs]

/-- Witness for the amended C5 at the concrete value `say "hi"` (which
contains two embedded double quotes and no backslash). -/
theorem escapeCmd_roundtrip_witness :
    ('\\' ∉ "say \"hi\"".data) ∧
      shParse false (escapeCmdL "say \"hi\"".data) = some "say \"hi\"".data :=
  ⟨by decide, escapeCmd_roundtrip "say \"hi\"".data (by decide)⟩

/-! ## Command Adapter tool sets

Embeddings of the tool `execute` bodies of `src/src/tools.ts` (ids
`init-project`, `list-tasks`, `view-task`, `create-task`, `edit-task`,
`list-docs`, `view-doc`) and of the Mastra-hub `backlogTools` set (ids
`init_project`, `task_list`, …, `get_workflow_overview`, …).  The bodies
of the seven `src/src/tools.ts` tools are textually identical to their
Mastra-hub counterparts (only the session map they consult differs, and
both are the same embedding `getEffectivePath`), so each body is defined
once and referenced from both dispatchers.

External collaborators live in `ExecEnv`:
* `backlogDirExists cwd` models `existsSync(join(cwd, "backlog"))`;
* `run cwd cmd` models `await execAsync(cmd, { cwd, timeout })` — `.ok`
  is a resolved promise (the CLI's stdout), `.thrown` a rejection
  (non-zero exit, spawn failure or timeout), whose message is caught by
  each tool's `catch` block;
* `docsFiles cwd` models `readdirSync(join(cwd, "backlog", "docs"))`;
* `readDocFile cwd f` models `readFileSync(join(docsDir, f), "utf-8")`;
* `basename` models Node's `path.basename`.

JS truthiness idioms from the source are factored into `jsOr` (`x || d`),
`optFlag` (`if (x) cmd += " --flag " + escapeCmd(x)`), `optRaw`
(`if (x) cmd += " --flag " + x`), `optEach`
(`if (xs) xs.forEach(x => cmd += " -f " + escapeCmd(x))`), `optJoin`
(`if (xs) cmd += " --flag " + escapeCmd(xs.join(","))`) and `optBool`
(`if (b) cmd += " --draft"`).
-/

/-- Union of the tool input-schema fields (each tool reads only its own;
absent/optional fields are `none`). -/
structure Args where
  path : Option String := none
  status : Option String := none
  assignee : Option String := none
  priority : Option String := none
  taskId : Option String := none
  title : Option String := none
  description : Option String := none
  assignees : Option (List String) := none
  labels : Option (List String) := none
  plan : Option String := none
  acceptance_criteria : Option (List String) := none
  notes : Option String := none
  dependencies : Option (List String) := none
  parent_id : Option String := none
  is_draft : Option Bool := none
  docId : Option String := none
  content : Option String := none
  query : Option String := none
  name : Option String := none
  oldName : Option String := none
  newName : Option String := none
  projectName : Option String := none

/-- Outcome of `execAsync`: resolved with stdout, or rejected with an
error message (non-zero exit, spawn failure, timeout kill). -/
inductive ExecResult where
  | ok (stdout : String)
  | thrown (message : String)
deriving DecidableEq

/-- The external collaborators of the Command Adapter (filesystem, the
wrapped CLI, Node's `path`). -/
structure ExecEnv where
  backlogDirExists : String → Bool
  run : String → String → ExecResult
  docsFiles : String → Except String (List String)
  readDocFile : String → String → Except String String
  basename : String → String

/-- A tool's structured result: `{ key: text }`, `{ error }`, or the
init tool's `{ success: true, message }` / `{ success: false, error }`. -/
inductive ToolResult where
  | ok (key text : String)
  | err (message : String)
  | initOk (message : String)
  | initErr (message : String)
deriving DecidableEq

/-- Result, updated session map, and the list of `(cwd, cmd)` external
CLI invocations the call performed. -/
abbrev ToolOut := ToolResult × SessionPaths × List (String × String)

/-- JS `x || d` on strings. -/
def jsOr (s dflt : String) : String := if s = "" then dflt else s

/-- `if (x) cmd += flag + escapeCmd(x)`. -/
def optFlag (flag : String) (v : Option String) : String :=
  match v with
  | some s => if s = "" then "" else flag ++ escapeCmd s
  | none => ""

/-- `if (x) cmd += flag + x` (used for the `priority` enum). -/
def optRaw (flag : String) (v : Option String) : String :=
  match v with
  | some s => if s = "" then "" else flag ++ s
  | none => ""

/-- `if (xs) xs.forEach(x => cmd += flag + escapeCmd(x))`. -/
def optEach (flag : String) (v : Option (List String)) : String :=
  match v with
  | some l => l.foldl (fun acc x => acc ++ flag ++ escapeCmd x) ""
  | none => ""

/-- `if (xs) cmd += flag + escapeCmd(xs.join(","))`. -/
def optJoin (flag : String) (v : Option (List String)) : String :=
  match v with
  | some l => flag ++ escapeCmd (String.intercalate "," l)
  | none => ""

/-- `if (b) cmd += flag`. -/
def optBool (flag : String) (v : Option Bool) : String :=
  if v = some true then flag else ""

/-- The `checkInit` failure message
(`No Backlog.md project found at ${cwd}. Please run 'init-project' first.`). -/
def initErrMsg (cwd : String) : String :=
  "No Backlog.md project found at " ++ cwd ++
    ". Please run \x27init-project\x27 first."

/-- The result is a structured error whose message names the
`init-project` initialization step. -/
def namesInitStep (r : ToolResult) : Prop :=
  match r with
  | .err m => "init-project".data <:+: m.data
  | _ => False

instance (r : ToolResult) : Decidable (namesInitStep r) := by
  cases r <;> unfold namesInitStep <;> infer_instance

lemma initErrMsg_names (cwd : String) : namesInitStep (.err (initErrMsg cwd)) := by
  show "init-project".data <:+: (initErrMsg cwd).data
  unfold initErrMsg
  rw [String.data_append, String.data_append]
  have h : "init-project".data <:+:
      ". Please run \x27init-project\x27 first.".data := by decide
  exact h.trans (List.suffix_append _ _).isInfix

/-- `init_project` / `init-project` execute body (no `checkInit`). -/
def initProject_execute (a : Args) (sid : String) (st : SessionPaths)
    (env : ExecEnv) : ToolOut :=
  let cwd := (getEffectivePath st sid a.path).1
  let st' := (getEffectivePath st sid a.path).2
  let nm := match a.projectName with
    | some s => if s = "" then env.basename cwd else s
    | none => env.basename cwd
  let cmd := "backlog init " ++ escapeCmd nm ++ " --defaults"
  match env.run cwd cmd with
  | .ok out => (.initOk (jsOr out "Project initialized"), st', [(cwd, cmd)])
  | .thrown m => (.initErr m, st', [(cwd, cmd)])

/-- `task_list` / `list-tasks` execute body. -/
def taskList_execute (a : Args) (sid : String) (st : SessionPaths)
    (env : ExecEnv) : ToolOut :=
  let cwd := (getEffectivePath st sid a.path).1
  let st' := (getEffectivePath st sid a.path).2
  if env.backlogDirExists cwd then
    let cmd := "backlog tasks list --plain" ++ optFlag " --status " a.status ++
      optFlag " --assignee " a.assignee ++ optRaw " --priority " a.priority
    match env.run cwd cmd with
    | .ok out => (.ok "tasks" (jsOr out "No tasks found"), st', [(cwd, cmd)])
    | .thrown m => (.err m, st', [(cwd, cmd)])
  else (.err (initErrMsg cwd), st', [])

/-- `task_view` / `view-task` execute body. -/
def taskView_execute (a : Args) (sid : String) (st : SessionPaths)
    (env : ExecEnv) : ToolOut :=
  let cwd := (getEffectivePath st sid a.path).1
  let st' := (getEffectivePath st sid a.path).2
  if env.backlogDirExists cwd then
    let cmd := "backlog tasks view " ++ a.taskId.getD "" ++ " --plain"
    match env.run cwd cmd with
    | .ok out => (.ok "details" (jsOr out "Task not found"), st', [(cwd, cmd)])
    | .thrown m => (.err m, st', [(cwd, cmd)])
  else (.err (initErrMsg cwd), st', [])

/-- `task_create` / `create-task` execute body. -/
def taskCreate_execute (a : Args) (sid : String) (st : SessionPaths)
    (env : ExecEnv) : ToolOut :=
  let cwd := (getEffectivePath st sid a.path).1
  let st' := (getEffectivePath st sid a.path).2
  if env.backlogDirExists cwd then
    let cmd := "backlog tasks create " ++ escapeCmd (a.title.getD "") ++
      optFlag " --description " a.description ++ optFlag " --status " a.status ++
      optRaw " --priority " a.priority ++ optEach " -a " a.assignees ++
      optEach " -l " a.labels ++ optFlag " --plan " a.plan ++
      optEach " --ac " a.acceptance_criteria ++ optFlag " --notes " a.notes ++
      optEach " --dep " a.dependencies ++ optFlag " --parent " a.parent_id ++
      optBool " --draft" a.is_draft
    match env.run cwd cmd with
    | .ok out => (.ok "result" (jsOr out "Task created"), st', [(cwd, cmd)])
    | .thrown m => (.err m, st', [(cwd, cmd)])
  else (.err (initErrMsg cwd), st', [])

/-- `task_edit` / `edit-task` execute body. -/
def taskEdit_execute (a : Args) (sid : String) (st : SessionPaths)
    (env : ExecEnv) : ToolOut :=
  let cwd := (getEffectivePath st sid a.path).1
  let st' := (getEffectivePath st sid a.path).2
  if env.backlogDirExists cwd then
    let cmd := "backlog tasks edit " ++ a.taskId.getD "" ++
      optFlag " --title " a.title ++ optFlag " --description " a.description ++
      optFlag " --status " a.status ++ optRaw " --priority " a.priority ++
      optEach " -a " a.assignees ++ optEach " -l " a.labels ++
      optFlag " --plan " a.plan ++
      optJoin " --acceptance-criteria " a.acceptance_criteria ++
      optFlag " --notes " a.notes ++ optEach " --dep " a.dependencies ++
      optFlag " --parent " a.parent_id
    match env.run cwd cmd with
    | .ok out => (.ok "result" (jsOr out "Task edited"), st', [(cwd, cmd)])
    | .thrown m => (.err m, st', [(cwd, cmd)])
  else (.err (initErrMsg cwd), st', [])

/-- `task_complete` execute body. -/
def taskComplete_execute (a : Args) (sid : String) (st : SessionPaths)
    (env : ExecEnv) : ToolOut :=
  let cwd := (getEffectivePath st sid a.path).1
  let st' := (getEffectivePath st sid a.path).2
  if env.backlogDirExists cwd then
    let cmd := "backlog tasks complete " ++ a.taskId.getD ""
    match env.run cwd cmd with
    | .ok out => (.ok "result" (jsOr out "Task completed"), st', [(cwd, cmd)])
    | .thrown m => (.err m, st', [(cwd, cmd)])
  else (.err (initErrMsg cwd), st', [])

/-- `task_archive` execute body. -/
def taskArchive_execute (a : Args) (sid : String) (st : SessionPaths)
    (env : ExecEnv) : ToolOut :=
  let cwd := (getEffectivePath st sid a.path).1
  let st' := (getEffectivePath st sid a.path).2
  if env.backlogDirExists cwd then
    let cmd := "backlog tasks archive " ++ a.taskId.getD ""
    match env.run cwd cmd with
    | .ok out => (.ok "result" (jsOr out "Task archived"), st', [(cwd, cmd)])
    | .thrown m => (.err m, st', [(cwd, cmd)])
  else (.err (initErrMsg cwd), st', [])

/-- `task_search` execute body. -/
def taskSearch_execute (a : Args) (sid : String) (st : SessionPaths)
    (env : ExecEnv) : ToolOut :=
  let cwd := (getEffectivePath st sid a.path).1
  let st' := (getEffectivePath st sid a.path).2
  if env.backlogDirExists cwd then
    let cmd := "backlog tasks search " ++ escapeCmd (a.query.getD "") ++ " --plain"
    match env.run cwd cmd with
    | .ok out => (.ok "tasks" (jsOr out "No tasks found"), st', [(cwd, cmd)])
    | .thrown m => (.err m, st', [(cwd, cmd)])
  else (.err (initErrMsg cwd), st', [])

/-- `document_list` / `list-docs` execute body. -/
def documentList_execute (a : Args) (sid : String) (st : SessionPaths)
    (env : ExecEnv) : ToolOut :=
  let cwd := (getEffectivePath st sid a.path).1
  let st' := (getEffectivePath st sid a.path).2
  if env.backlogDirExists cwd then
    let cmd := "backlog doc list --plain"
    match env.run cwd cmd with
    | .ok out => (.ok "docs" (jsOr out "No documents found"), st', [(cwd, cmd)])
    | .thrown m => (.err m, st', [(cwd, cmd)])
  else (.err (initErrMsg cwd), st', [])

/-- `document_view` / `view-doc` execute body (reads the document from the
filesystem; never invokes the CLI). -/
def documentView_execute (a : Args) (sid : String) (st : SessionPaths)
    (env : ExecEnv) : ToolOut :=
  let cwd := (getEffectivePath st sid a.path).1
  let st' := (getEffectivePath st sid a.path).2
  if env.backlogDirExists cwd then
    match env.docsFiles cwd with
    | .error m => (.err m, st', [])
    | .ok files =>
      let docId := a.docId.getD ""
      match files.find? (fun f =>
          (docId ++ " - ").isPrefixOf f || f = docId ++ ".md") with
      | none => (.err "Doc not found", st', [])
      | some f =>
        match env.readDocFile cwd f with
        | .error m => (.err m, st', [])
        | .ok content => (.ok "content" content, st', [])
  else (.err (initErrMsg cwd), st', [])

/-- `document_create` execute body. -/
def documentCreate_execute (a : Args) (sid : String) (st : SessionPaths)
    (env : ExecEnv) : ToolOut :=
  let cwd := (getEffectivePath st sid a.path).1
  let st' := (getEffectivePath st sid a.path).2
  if env.backlogDirExists cwd then
    let cmd := "backlog doc create " ++ escapeCmd (a.title.getD "") ++
      optFlag " --content " a.content
    match env.run cwd cmd with
    | .ok out => (.ok "result" (jsOr out "Doc created"), st', [(cwd, cmd)])
    | .thrown m => (.err m, st', [(cwd, cmd)])
  else (.err (initErrMsg cwd), st', [])

/-- `document_update` execute body. -/
def documentUpdate_execute (a : Args) (sid : String) (st : SessionPaths)
    (env : ExecEnv) : ToolOut :=
  let cwd := (getEffectivePath st sid a.path).1
  let st' := (getEffectivePath st sid a.path).2
  if env.backlogDirExists cwd then
    let cmd := "backlog doc edit " ++ a.docId.getD "" ++
      optFlag " --title " a.title ++ optFlag " --content " a.content
    match env.run cwd cmd with
    | .ok out => (.ok "result" (jsOr out "Doc updated"), st', [(cwd, cmd)])
    | .thrown m => (.err m, st', [(cwd, cmd)])
  else (.err (initErrMsg cwd), st', [])

/-- `document_search` execute body. -/
def documentSearch_execute (a : Args) (sid : String) (st : SessionPaths)
    (env : ExecEnv) : ToolOut :=
  let cwd := (getEffectivePath st sid a.path).1
  let st' := (getEffectivePath st sid a.path).2
  if env.backlogDirExists cwd then
    let cmd := "backlog doc search " ++ escapeCmd (a.query.getD "") ++ " --plain"
    match env.run cwd cmd with
    | .ok out => (.ok "docs" (jsOr out "No docs found"), st', [(cwd, cmd)])
    | .thrown m => (.err m, st', [(cwd, cmd)])
  else (.err (initErrMsg cwd), st', [])

/-- `milestone_list` execute body. -/
def milestoneList_execute (a : Args) (sid : String) (st : SessionPaths)
    (env : ExecEnv) : ToolOut :=
  let cwd := (getEffectivePath st sid a.path).1
  let st' := (getEffectivePath st sid a.path).2
  if env.backlogDirExists cwd then
    let cmd := "backlog milestone list"
    match env.run cwd cmd with
    | .ok out => (.ok "milestones" (jsOr out "No milestones found"), st', [(cwd, cmd)])
    | .thrown m => (.err m, st', [(cwd, cmd)])
  else (.err (initErrMsg cwd), st', [])

/-- `milestone_add` execute body. -/
def milestoneAdd_execute (a : Args) (sid : String) (st : SessionPaths)
    (env : ExecEnv) : ToolOut :=
  let cwd := (getEffectivePath st sid a.path).1
  let st' := (getEffectivePath st sid a.path).2
  if env.backlogDirExists cwd then
    let cmd := "backlog milestone add " ++ escapeCmd (a.name.getD "")
    match env.run cwd cmd with
    | .ok out => (.ok "result" (jsOr out "Milestone added"), st', [(cwd, cmd)])
    | .thrown m => (.err m, st', [(cwd, cmd)])
  else (.err (initErrMsg cwd), st', [])

/-- `milestone_rename` execute body. -/
def milestoneRename_execute (a : Args) (sid : String) (st : SessionPaths)
    (env : ExecEnv) : ToolOut :=
  let cwd := (getEffectivePath st sid a.path).1
  let st' := (getEffectivePath st sid a.path).2
  if env.backlogDirExists cwd then
    let cmd := "backlog milestone rename " ++ escapeCmd (a.oldName.getD "") ++
      " " ++ escapeCmd (a.newName.getD "")
    match env.run cwd cmd with
    | .ok out => (.ok "result" (jsOr out "Milestone renamed"), st', [(cwd, cmd)])
    | .thrown m => (.err m, st', [(cwd, cmd)])
  else (.err (initErrMsg cwd), st', [])

/-- `milestone_remove` execute body. -/
def milestoneRemove_execute (a : Args) (sid : String) (st : SessionPaths)
    (env : ExecEnv) : ToolOut :=
  let cwd := (getEffectivePath st sid a.path).1
  let st' := (getEffectivePath st sid a.path).2
  if env.backlogDirExists cwd then
    let cmd := "backlog milestone remove " ++ escapeCmd (a.name.getD "")
    match env.run cwd cmd with
    | .ok out => (.ok "result" (jsOr out "Milestone removed"), st', [(cwd, cmd)])
    | .thrown m => (.err m, st', [(cwd, cmd)])
  else (.err (initErrMsg cwd), st', [])

/-- Shared body of the four workflow-guide tools: they call the external
CLI directly, with **no** `checkInit` precondition check. -/
def workflowGuide_execute (subcommand : String) (a : Args) (sid : String)
    (st : SessionPaths) (env : ExecEnv) : ToolOut :=
  let cwd := (getEffectivePath st sid a.path).1
  let st' := (getEffectivePath st sid a.path).2
  let cmd := "backlog workflow " ++ subcommand
  match env.run cwd cmd with
  | .ok out => (.ok "content" out, st', [(cwd, cmd)])
  | .thrown m => (.err m, st', [(cwd, cmd)])

/-- The Mastra-hub `backlogTools` tool names (keys of the exported
record). -/
inductive BacklogToolId where
  | init_project | task_list | task_view | task_create | task_edit
  | task_complete | task_archive | task_search
  | document_list | document_view | document_create | document_update
  | document_search
  | milestone_list | milestone_add | milestone_rename | milestone_remove
  | get_workflow_overview | get_task_creation_guide
  | get_task_execution_guide | get_task_completion_guide
deriving DecidableEq

/-- Dispatch a Mastra-hub tool call to its execute body. -/
def runBacklogTool : BacklogToolId → Args → String → SessionPaths → ExecEnv → ToolOut
  | .init_project => initProject_execute
  | .task_list => taskList_execute
  | .task_view => taskView_execute
  | .task_create => taskCreate_execute
  | .task_edit => taskEdit_execute
  | .task_complete => taskComplete_execute
  | .task_archive => taskArchive_execute
  | .task_search => taskSearch_execute
  | .document_list => documentList_execute
  | .document_view => documentView_execute
  | .document_create => documentCreate_execute
  | .document_update => documentUpdate_execute
  | .document_search => documentSearch_execute
  | .milestone_list => milestoneList_execute
  | .milestone_add => milestoneAdd_execute
  | .milestone_rename => milestoneRename_execute
  | .milestone_remove => milestoneRemove_execute
  | .get_workflow_overview => workflowGuide_execute "overview"
  | .get_task_creation_guide => workflowGuide_execute "task-creation"
  | .get_task_execution_guide => workflowGuide_execute "task-execution"
  | .get_task_completion_guide => workflowGuide_execute "task-completion"

/-- The `src/src/tools.ts` tool ids (hyphenated); their bodies are
textually identical to the Mastra-hub counterparts above. -/
inductive AdapterToolId where
  | initProject | listTasks | viewTask | createTask | editTask
  | listDocs | viewDoc
deriving DecidableEq

/-- Dispatch a `src/src/tools.ts` tool call to its execute body. -/
def runAdapterTool : AdapterToolId → Args → String → SessionPaths → ExecEnv → ToolOut
  | .initProject => initProject_execute
  | .listTasks => taskList_execute
  | .viewTask => taskView_execute
  | .createTask => taskCreate_execute
  | .editTask => taskEdit_execute
  | .listDocs => documentList_execute
  | .viewDoc => documentView_execute

/-- The four workflow-guide tools of the Mastra-hub set. -/
def isWorkflowGuide : BacklogToolId → Bool
  | .get_workflow_overview | .get_task_creation_guide
  | .get_task_execution_guide | .get_task_completion_guide => true
  | _ => false

/-- A concrete environment in which the `backlog` marker directory exists
nowhere and every CLI invocation would succeed with fixed output. -/
def noProjectEnv : ExecEnv where
  backlogDirExists := fun _ => false
  run := fun _ _ => .ok "guide text"
  docsFiles := fun _ => .error "ENOENT"
  readDocFile := fun _ _ => .error "ENOENT"
  basename := fun p => p

/-- **C6 counterexample.** `get_workflow_overview` is a tool other than
the initialization tool, yet with no `backlog` marker directory under the
effective working directory it still spawns the external CLI (one
invocation is recorded) and returns no error naming `init-project` —
refuting the claim as stated for "every tool call other than the
initialization tool". -/
theorem checkInit_workflow_counterexample :
    BacklogToolId.get_workflow_overview ≠ BacklogToolId.init_project ∧
    noProjectEnv.backlogDirExists
      (getEffectivePath emptyPaths "s1" none).1 = false ∧
    (runBacklogTool .get_workflow_overview {} "s1" emptyPaths noProjectEnv).2.2 ≠ [] ∧
    ¬ namesInitStep
      (runBacklogTool .get_workflow_overview {} "s1" emptyPaths noProjectEnv).1 := by
  refine ⟨by decide, rfl, ?_, ?_⟩ <;> decide

/-- **C6 (amended).** For every tool call other than the initialization
tool *and other than the four workflow-guide tools* (which perform no
precondition check), in both tool sets: if the `backlog` marker directory
does not exist under the effective working directory, the call fails fast
with a structured error whose message names the `init-project`
initialization step, and the external CLI is never spawned for that
call. -/
theorem checkInit_gates_tools :
    (∀ (t : BacklogToolId), t ≠ .init_project → isWorkflowGuide t = false →
      ∀ (a : Args) (sid : String) (st : SessionPaths) (env : ExecEnv),
        env.backlogDirExists (getEffectivePath st sid a.path).1 = false →
        namesInitStep (runBacklogTool t a sid st env).1 ∧
        (runBacklogTool t a sid st env).2.2 = []) ∧
    (∀ (t : AdapterToolId), t ≠ .initProject →
      ∀ (a : Args) (sid : String) (st : SessionPaths) (env : ExecEnv),
        env.backlogDirExists (getEffectivePath st sid a.path).1 = false →
        namesInitStep (runAdapterTool t a sid st env).1 ∧
        (runAdapterTool t a sid st env).2.2 = []) := by
  constructor
  · intro t hinit hwf a sid st env h
    cases t <;>
      first
      | exact absurd rfl hinit
      | exact absurd hwf (by decide)
      | exact ⟨by
          simp only [runBacklogTool, taskList_execute, taskView_execute,
            taskCreate_execute, taskEdit_execute, taskComplete_execute,
            taskArchive_execute, taskSearch_execute, documentList_execute,
            documentView_execute, documentCreate_execute,
            documentUpdate_execute, documentSearch_execute,
            milestoneList_execute, milestoneAdd_execute,
            milestoneRename_execute, milestoneRemove_execute, h,
            Bool.false_eq_true, if_false]
          exact initErrMsg_names _,
        by
          simp only [runBacklogTool, taskList_execute, taskView_execute,
            taskCreate_execute, taskEdit_execute, taskComplete_execute,
            taskArchive_execute, taskSearch_execute, documentList_execute,
            documentView_execute, documentCreate_execute,
            documentUpdate_execute, documentSearch_execute,
            milestoneList_execute, milestoneAdd_execute,
            milestoneRename_execute, milestoneRemove_execute, h,
            Bool.false_eq_true, if_false]⟩
  · intro t hinit a sid st env h
    cases t <;>
      first
      | exact absurd rfl hinit
      | exact ⟨by
          simp only [runAdapterTool, taskList_execute, taskView_execute,
            taskCreate_execute, taskEdit_execute, documentList_execute,
            documentView_execute, h, Bool.false_eq_true, if_false]
          exact initErrMsg_names _,
        by
          simp only [runAdapterTool, taskList_execute, taskView_execute,
            taskCreate_execute, taskEdit_execute, documentList_execute,
            documentView_execute, h, Bool.false_eq_true, if_false]⟩

/-- Witness for the amended C6: the concrete `task_list` call (and the
concrete `list-tasks` call of `src/src/tools.ts`) in an environment with
no marker directory anywhere yields an error naming `init-project` and
records no CLI invocation. -/
theorem checkInit_gates_tools_witness :
    (BacklogToolId.task_list ≠ BacklogToolId.init_project) ∧
    isWorkflowGuide .task_list = false ∧
    noProjectEnv.backlogDirExists
      (getEffectivePath emptyPaths "s1" none).1 = false ∧
    (namesInitStep (runBacklogTool .task_list {} "s1" emptyPaths noProjectEnv).1 ∧
      (runBacklogTool .task_list {} "s1" emptyPaths noProjectEnv).2.2 = []) ∧
    (namesInitStep (runAdapterTool .listTasks {} "s1" emptyPaths noProjectEnv).1 ∧
      (runAdapterTool .listTasks {} "s1" emptyPaths noProjectEnv).2.2 = []) :=
  ⟨by decide, by decide, rfl,
    checkInit_gates_tools.1 .task_list (by decide) (by decide)
      {} "s1" emptyPaths noProjectEnv rfl,
    checkInit_gates_tools.2 .listTasks (by decide)
      {} "s1" emptyPaths noProjectEnv rfl⟩

/-! ## Stdio Bridge

Embedding of the `StdioBridge` class:

```
private process: ChildProcess | null = null;
private messageId = 1;
private pendingRequests = new Map<number, (res: any) => void>();
private buffer = "";
```

The bridge is modelled as a state machine over `BridgeState` driven by
the events the Node event loop can deliver.  Crucially, `start()`
registers listeners **only** for `stdout` `data` and `stderr` `data`;
the source installs **no** `exit`/`close`/`error` listener on the child
process, so a process-exit event dispatches no bridge code at all and is
the identity on the bridge state.

* `spawnStep` — the `spawn(...)` assignment in `start()` (process
  handles are numbered by spawn order so that a re-spawn is observable);
* `sendRequest` — the synchronous body of `request()` in the
  already-started case (the `if (!this.process) await this.start()`
  guard does not fire): `const id = this.messageId++`, register the
  pending resolver under `id`, write the envelope to the child's stdin;
* `startSync` — the synchronous prefix of `start()`: spawn, install the
  two data handlers, and issue the `"initialize"` handshake request (the
  second handshake message is only sent after the initialize reply
  arrives, i.e. by a later `sendRequest`);
* `onData` — the `stdout.on("data", ...)` handler: append the chunk to
  `buffer` and run `processBuffer()`;
* `processBuffer` — split the buffer on newlines, keep the trailing
  incomplete segment (`lines.pop() || ""`), and for each complete line:
  skip it if blank (`!line.trim()`), try `JSON.parse` (a failed parse is
  silently ignored), and if the parsed message carries an `id` that has
  a registered pending resolver, resolve it with the message and delete
  the entry.

`JSON.parse` is an external runtime builtin and is passed in as a
function `parse : List Char → Option PMsg`; `PMsg` models the parsed
object restricted to what `processBuffer` inspects (its `id` field, or
`none` when `id` is absent/unusable, plus an opaque payload).
Resolving a pending call is recorded as a delivery `(i, m)`: the
resolver registered under id `i` is called with message `m`.
-/

/-- A parsed reply line: the `id` field as seen by `processBuffer`
(`none` when `message.id === undefined`), plus the rest of the message,
kept opaque. -/
structure PMsg where
  id : Option Nat
  payload : String
deriving DecidableEq

/-- The mutable fields of a `StdioBridge`, plus a spawn counter so that
re-spawns are observable (process handles are numbered by spawn order). -/
structure BridgeState where
  process : Option Nat
  messageId : Nat
  pendingRequests : List Nat
  buffer : List Char
  spawnCount : Nat
deriving DecidableEq

/-- A freshly constructed bridge. -/
def initialBridge : BridgeState :=
  { process := none, messageId := 1, pendingRequests := [], buffer := [],
    spawnCount := 0 }

/-- `this.process = spawn(...)` inside `start()`. -/
def spawnStep (st : BridgeState) : BridgeState :=
  { st with process := some (st.spawnCount + 1), spawnCount := st.spawnCount + 1 }

/-- Synchronous body of `request()` in the already-started case:
`const id = this.messageId++`, register the pending call, write the
envelope.  Returns the new state and the allocated id. -/
def sendRequest (st : BridgeState) : BridgeState × Nat :=
  ({ st with messageId := st.messageId + 1,
             pendingRequests := st.pendingRequests ++ [st.messageId] },
   st.messageId)

/-- Synchronous prefix of `start()`: spawn the child (installing the two
`data` handlers) and issue the `"initialize"` handshake request.  Note
the source guards nothing here: `start()` always spawns. -/
def startSync (st : BridgeState) : BridgeState × Nat :=
  sendRequest (spawnStep st)

/-- JS `s.split("\n")` (always returns at least one, possibly empty,
segment). -/
def splitNl : List Char → List (List Char)
  | [] => [[]]
  | c :: rest =>
    if c = '\n' then [] :: splitNl rest
    else
      match splitNl rest with
      | [] => [[c]]
      | l :: ls => (c :: l) :: ls

/-- `!line.trim()`: the line is blank (whitespace only; a line never
contains a newline). -/
def jsTrimEmpty (l : List Char) : Bool :=
  l.all fun c => c == ' ' || c == '\t' || c == '\r'

/-- The per-line loop of `processBuffer()` over the complete lines:
skip blank lines, ignore unparseable ones, and resolve-and-delete the
pending entry matching the parsed message's id (a reply for an unknown
id is dropped).  Returns the remaining pending ids and the list of
deliveries in the order they were performed. -/
def processLines (parse : List Char → Option PMsg) (pending : List Nat) :
    List (List Char) → List Nat × List (Nat × PMsg)
  | [] => (pending, [])
  | line :: rest =>
    if jsTrimEmpty line then processLines parse pending rest
    else
      match parse line with
      | none => processLines parse pending rest
      | some m =>
        match m.id with
        | none => processLines parse pending rest
        | some i =>
          if pending.contains i then
            let r := processLines parse (pending.erase i) rest
            (r.1, (i, m) :: r.2)
          else processLines parse pending rest

/-- `processBuffer()`: split on newlines, retain the trailing incomplete
segment as the new buffer (`this.buffer = lines.pop() || ""`), process
every complete line. -/
def processBuffer (parse : List Char → Option PMsg) (st : BridgeState) :
    BridgeState × List (Nat × PMsg) :=
  let segs := splitNl st.buffer
  let r := processLines parse st.pendingRequests segs.dropLast
  ({ st with buffer := (segs.getLast?).getD [], pendingRequests := r.1 }, r.2)

/-- The `stdout` `data` handler: `this.buffer += data; this.processBuffer()`. -/
def onData (parse : List Char → Option PMsg) (st : BridgeState)
    (chunk : List Char) : BridgeState × List (Nat × PMsg) :=
  processBuffer parse { st with buffer := st.buffer ++ chunk }

/-- The events the Node event loop can deliver to a bridge: a spawn, an
id-allocating request write, a chunk on the child's stdout or stderr,
and the child's process exit. -/
inductive BridgeEv where
  | spawn
  | send
  | stdoutData (chunk : List Char)
  | stderrData (chunk : List Char)
  | processExit
deriving DecidableEq

/-- One event-loop step of the bridge.  The `stderr` handler only logs,
and — decisive for the exit behavior — the source installs no
`exit`/`close` listener, so `processExit` runs no bridge code: the state
is unchanged and nothing is delivered.  Returns the new state, the
deliveries performed, and the ids allocated. -/
def stepBridge (parse : List Char → Option PMsg) (st : BridgeState) :
    BridgeEv → BridgeState × List (Nat × PMsg) × List Nat
  | .spawn => (spawnStep st, [], [])
  | .send => ((sendRequest st).1, [], [(sendRequest st).2])
  | .stdoutData ch => ((onData parse st ch).1, (onData parse st ch).2, [])
  | .stderrData _ => (st, [], [])
  | .processExit => (st, [], [])

/-- Run a sequence of events, accumulating deliveries and allocated ids. -/
def runBridge (parse : List Char → Option PMsg) (st : BridgeState) :
    List BridgeEv → BridgeState × List (Nat × PMsg) × List Nat
  | [] => (st, [], [])
  | e :: evs =>
    let r := stepBridge parse st e
    let rr := runBridge parse r.1 evs
    (rr.1, r.2.1 ++ rr.2.1, r.2.2 ++ rr.2.2)

lemma runBridge_ids (parse : List Char → Option PMsg) :
    ∀ (evs : List BridgeEv) (st : BridgeState),
      List.Pairwise (· < ·) (runBridge parse st evs).2.2 ∧
      ∀ i ∈ (runBridge parse st evs).2.2, st.messageId ≤ i := by
  intro evs
  induction evs with
  | nil => intro st; simp [runBridge]
  | cons e evs ih =>
    intro st
    cases e with
    | spawn =>
      obtain ⟨h1, h2⟩ := ih (spawnStep st)
      exact ⟨by simpa [runBridge, stepBridge] using h1,
        by simpa [runBridge, stepBridge, spawnStep] using h2⟩
    | send =>
      obtain ⟨h1, h2⟩ := ih (sendRequest st).1
      have h2' : ∀ i ∈ (runBridge parse (sendRequest st).1 evs).2.2,
          st.messageId + 1 ≤ i := by simpa [sendRequest] using h2
      refine ⟨?_, ?_⟩
      · simp only [runBridge, stepBridge, List.singleton_append,
          List.pairwise_cons]
        exact ⟨fun j hj => Nat.lt_of_lt_of_le (Nat.lt_succ_self _) (h2' j hj), h1⟩
      · simp only [runBridge, stepBridge, List.singleton_append,
          List.mem_cons]
        rintro i (rfl | hi)
        · exact Nat.le_refl _
        · exact Nat.le_trans (Nat.le_succ _) (h2' i hi)
    | stdoutData ch =>
      obtain ⟨h1, h2⟩ := ih (onData parse st ch).1
      have hm : (onData parse st ch).1.messageId = st.messageId := rfl
      exact ⟨by simpa [runBridge, stepBridge] using h1,
        by simpa [runBridge, stepBridge, hm] using h2⟩
    | stderrData ch =>
      obtain ⟨h1, h2⟩ := ih st
      exact ⟨by simpa [runBridge, stepBridge] using h1,
        by simpa [runBridge, stepBridge] using h2⟩
    | processExit =>
      obtain ⟨h1, h2⟩ := ih st
      exact ⟨by simpa [runBridge, stepBridge] using h1,
        by simpa [runBridge, stepBridge] using h2⟩

/-- **C9.** Within one bridge's lifetime (any sequence of event-loop
events from a freshly constructed bridge), the ids allocated to
`request()` calls are strictly increasing in allocation order — each id
is strictly greater than every previously allocated id — and hence
unique, never reused. -/
theorem request_ids_strictly_increasing (parse : List Char → Option PMsg)
    (evs : List BridgeEv) :
    List.Pairwise (· < ·) (runBridge parse initialBridge evs).2.2 ∧
    (runBridge parse initialBridge evs).2.2.Nodup :=
  have h := runBridge_ids parse evs initialBridge
  ⟨h.1, h.1.imp fun hlt => Nat.ne_of_lt hlt⟩

/-- Concatenation of newline-terminated reply lines, as the child's
stdout would carry them. -/
def repliesChunk (enc : PMsg → List Char) : List PMsg → List Char
  | [] => []
  | m :: ms => enc m ++ '\n' :: repliesChunk enc ms

lemma splitNl_append_newline (l rest : List Char) (hl : '\n' ∉ l) :
    splitNl (l ++ '\n' :: rest) = l :: splitNl rest := by
  induction l with
  | nil => simp [splitNl]
  | cons c cs ih =>
    have hc : ¬c = '\n' := fun h => hl (h ▸ List.mem_cons_self c cs)
    have hcs : '\n' ∉ cs := fun h => hl (List.mem_cons_of_mem c h)
    simp only [List.cons_append, splitNl, if_neg hc]
    rw [show cs.append ('\n' :: rest) = cs ++ '\n' :: rest from rfl, ih hcs]

lemma splitNl_repliesChunk (enc : PMsg → List Char) :
    ∀ ms : List PMsg, (∀ m ∈ ms, '\n' ∉ enc m) →
      splitNl (repliesChunk enc ms) = ms.map enc ++ [[]] := by
  intro ms
  induction ms with
  | nil => intro _; rfl
  | cons m ms ih =>
    intro h
    have hm : '\n' ∉ enc m := h m (List.mem_cons_self m ms)
    have hms : ∀ m₂ ∈ ms, '\n' ∉ enc m₂ := fun m₂ hm₂ =>
      h m₂ (List.mem_cons_of_mem m hm₂)
    simp only [repliesChunk, splitNl_append_newline _ _ hm, ih hms,
      List.map_cons, List.cons_append]

lemma processLines_delivers (parse : List Char → Option PMsg)
    (enc : PMsg → List Char) :
    ∀ (ms : List PMsg) (pending : List Nat),
      pending.Nodup →
      (∀ m ∈ ms, parse (enc m) = some m) →
      (∀ m ∈ ms, jsTrimEmpty (enc m) = false) →
      (∀ m ∈ ms, ∃ i, m.id = some i ∧ i ∈ pending) →
      (ms.filterMap PMsg.id).Nodup →
      (processLines parse pending (ms.map enc)).2 =
        ms.map fun m => (m.id.getD 0, m) := by
  intro ms
  induction ms with
  | nil => intro pending _ _ _ _ _; rfl
  | cons m ms ih =>
    intro pending hnd hparse htrim hid hids
    obtain ⟨i, hi, hipend⟩ := hid m (List.mem_cons_self m ms)
    have hparse_m := hparse m (List.mem_cons_self m ms)
    have htrim_m := htrim m (List.mem_cons_self m ms)
    have hcont : pending.contains i := List.elem_eq_true_of_mem hipend
    have hfm : (m :: ms).filterMap PMsg.id = i :: ms.filterMap PMsg.id := by
      simp [List.filterMap_cons, hi]
    rw [hfm] at hids
    have hi_not : i ∉ ms.filterMap PMsg.id := (List.nodup_cons.mp hids).1
    have hids' : (ms.filterMap PMsg.id).Nodup := (List.nodup_cons.mp hids).2
    have hid' : ∀ m₂ ∈ ms, ∃ j, m₂.id = some j ∧ j ∈ pending.erase i := by
      intro m₂ hm₂
      obtain ⟨j, hj, hjpend⟩ := hid m₂ (List.mem_cons_of_mem m hm₂)
      refine ⟨j, hj, ?_⟩
      have hji : j ≠ i := by
        intro hji
        exact hi_not (hji ▸ List.mem_filterMap.mpr ⟨m₂, hm₂, hj⟩)
      exact (List.mem_erase_of_ne hji).mpr hjpend
    have ihr := ih (pending.erase i) (hnd.erase i)
      (fun m₂ hm₂ => hparse m₂ (List.mem_cons_of_mem m hm₂))
      (fun m₂ hm₂ => htrim m₂ (List.mem_cons_of_mem m hm₂))
      hid' hids'
    simp only [List.map_cons, processLines, htrim_m, Bool.false_eq_true,
      if_false, hparse_m, hi, hcont, if_true, ihr, hi, Option.getD_some]

/-- **C2.** Correlation correctness under reordering: take a bridge with
an empty frame buffer and any set of outstanding pending calls (distinct
ids), and let any sequence `ms` of well-formed reply messages — in *any*
arrival order — for (a subset of) those pending ids arrive on the
child's stdout as one newline-terminated chunk.  Then the handler
resolves, in arrival order, exactly the pending call whose id equals
each reply's own `id` field: every caller receives precisely the reply
carrying its own id, independent of arrival order. -/
theorem replies_routed_by_id (parse : List Char → Option PMsg)
    (enc : PMsg → List Char) (st : BridgeState) (ms : List PMsg)
    (hbuf : st.buffer = [])
    (hnd : st.pendingRequests.Nodup)
    (hparse : ∀ m ∈ ms, parse (enc m) = some m)
    (hnl : ∀ m ∈ ms, '\n' ∉ enc m)
    (htrim : ∀ m ∈ ms, jsTrimEmpty (enc m) = false)
    (hid : ∀ m ∈ ms, ∃ i, m.id = some i ∧ i ∈ st.pendingRequests)
    (hids : (ms.filterMap PMsg.id).Nodup) :
    (onData parse st (repliesChunk enc ms)).2 =
      ms.map fun m => (m.id.getD 0, m) := by
  unfold onData processBuffer
  simp only [hbuf, List.nil_append]
  rw [splitNl_repliesChunk enc ms hnl]
  have hdrop : (ms.map enc ++ [([] : List Char)]).dropLast = ms.map enc := by
    simp
  rw [hdrop, processLines_delivers parse enc ms st.pendingRequests hnd hparse
    htrim hid hids]

/-- A reply message carrying id `i` and a recognizable payload. -/
def demoMsg (i : Nat) : PMsg := { id := some i, payload := "r" ++ toString i }

/-- A concrete stand-in for `JSON.stringify` on demo replies: the id's
decimal digits. -/
def demoEnc (m : PMsg) : List Char := (toString (m.id.getD 0)).data

/-- A concrete stand-in for `JSON.parse`, inverse to `demoEnc` on the
three demo replies. -/
def demoParse (l : List Char) : Option PMsg :=
  if l = "1".data then some (demoMsg 1)
  else if l = "2".data then some (demoMsg 2)
  else if l = "3".data then some (demoMsg 3)
  else none

/-- A started bridge with three outstanding calls, ids 1, 2, 3. -/
def demoBridge : BridgeState :=
  { process := some 1, messageId := 4, pendingRequests := [1, 2, 3],
    buffer := [], spawnCount := 1 }

/-- Witness for C2 at the spec's concrete scenario: calls issued with
ids 1, 2, 3 and replies arriving in order 3, 1, 2 — each of the three
callers is resolved with exactly the reply carrying its own id. -/
theorem replies_routed_by_id_witness :
    demoBridge.buffer = [] ∧
    demoBridge.pendingRequests.Nodup ∧
    (∀ m ∈ [demoMsg 3, demoMsg 1, demoMsg 2], demoParse (demoEnc m) = some m) ∧
    (onData demoParse demoBridge
        (repliesChunk demoEnc [demoMsg 3, demoMsg 1, demoMsg 2])).2 =
      [(3, demoMsg 3), (1, demoMsg 1), (2, demoMsg 2)] := by
  refine ⟨rfl, by decide, by decide, ?_⟩
  rw [replies_routed_by_id demoParse demoEnc demoBridge
    [demoMsg 3, demoMsg 1, demoMsg 2] rfl (by decide) (by decide) (by decide)
    (by decide) (by decide) (by decide)]
  decide

/-- Recognizer for stdout-data events. -/
def isStdoutData : BridgeEv → Bool
  | .stdoutData _ => true
  | _ => false

lemma runBridge_no_data (parse : List Char → Option PMsg) :
    ∀ (evs : List BridgeEv) (st : BridgeState),
      (∀ e ∈ evs, isStdoutData e = false) →
      (runBridge parse st evs).2.1 = [] ∧
      (runBridge parse st evs).1.pendingRequests =
        st.pendingRequests ++ (runBridge parse st evs).2.2 := by
  intro evs
  induction evs with
  | nil => intro st _; simp [runBridge]
  | cons e evs ih =>
    intro st h
    have he := h e (List.mem_cons_self e evs)
    have hrest : ∀ e₂ ∈ evs, isStdoutData e₂ = false := fun e₂ h₂ =>
      h e₂ (List.mem_cons_of_mem e h₂)
    cases e with
    | spawn =>
      obtain ⟨h1, h2⟩ := ih (spawnStep st) hrest
      exact ⟨by simpa [runBridge, stepBridge] using h1,
        by simpa [runBridge, stepBridge, spawnStep] using h2⟩
    | send =>
      obtain ⟨h1, h2⟩ := ih (sendRequest st).1 hrest
      refine ⟨by simpa [runBridge, stepBridge] using h1, ?_⟩
      simp only [runBridge, stepBridge]
      rw [h2]
      simp [sendRequest]
    | stdoutData ch => simp [isStdoutData] at he
    | stderrData ch =>
      obtain ⟨h1, h2⟩ := ih st hrest
      exact ⟨by simpa [runBridge, stepBridge] using h1,
        by simpa [runBridge, stepBridge] using h2⟩
    | processExit =>
      obtain ⟨h1, h2⟩ := ih st hrest
      exact ⟨by simpa [runBridge, stepBridge] using h1,
        by simpa [runBridge, stepBridge] using h2⟩

/-- **C1 (divergence exhibit).** `start()` installs listeners only for
`stdout`/`stderr` `data`; no `exit`/`close` handler exists, so the
child's process exit dispatches no bridge code at all.  Consequently,
for a bridge in any state, after the process-exit event — followed by
any further events that are not stdout data (the child is gone, so no
further replies can arrive) — *no* pending call is ever resolved: no
delivery (successful or failing) happens, and every previously pending
id is still pending.  This contradicts the claim that every pending
call is resolved with a failure within bounded time. -/
theorem bridge_exit_leaves_pending_unresolved
    (parse : List Char → Option PMsg) (st : BridgeState)
    (evs : List BridgeEv) (hnodata : ∀ e ∈ evs, isStdoutData e = false) :
    (runBridge parse st (.processExit :: evs)).2.1 = [] ∧
    ∀ i ∈ st.pendingRequests,
      i ∈ (runBridge parse st (.processExit :: evs)).1.pendingRequests := by
  have h := runBridge_no_data parse evs st hnodata
  constructor
  · simpa [runBridge, stepBridge] using h.1
  · intro i hi
    have : (runBridge parse st (.processExit :: evs)).1.pendingRequests =
        st.pendingRequests ++ (runBridge parse st evs).2.2 := by
      simpa [runBridge, stepBridge] using h.2
    rw [this]
    exact List.mem_append_left _ hi

/-- Witness for the C1 exhibit at a concrete failing input: the bridge
with pending calls 1, 2, 3 whose child exits (with one later stderr
chunk): nothing is delivered and id 1 is still pending. -/
theorem bridge_exit_leaves_pending_unresolved_witness :
    (∀ e ∈ [BridgeEv.stderrData "bye".data], isStdoutData e = false) ∧
    (runBridge demoParse demoBridge
        (.processExit :: [BridgeEv.stderrData "bye".data])).2.1 = [] ∧
    1 ∈ (runBridge demoParse demoBridge
        (.processExit :: [BridgeEv.stderrData "bye".data])).1.pendingRequests :=
  have h := bridge_exit_leaves_pending_unresolved demoParse demoBridge
    [BridgeEv.stderrData "bye".data] (by decide)
  ⟨by decide, h.1, h.2 1 (by decide)⟩

/-- A bridge that has completed `start()`: one child spawned
(handle 1), the two handshake calls already issued and resolved
(`messageId` is 3), no pending calls, empty buffer. -/
def startedBridge : BridgeState :=
  { process := some 1, messageId := 3, pendingRequests := [], buffer := [],
    spawnCount := 1 }

/-- **C3 counterexample.** Calling `start()` on an already-started
bridge is *not* a no-op: at the concrete started bridge, `start()`
spawns a second child (spawn count becomes 2), replaces the process
handle, re-issues the handshake initialize request under a fresh id
(a new pending entry appears), and advances the message-id counter —
the state is not left unchanged. -/
theorem start_not_idempotent_counterexample :
    (startSync startedBridge).1 ≠ startedBridge ∧
    (startSync startedBridge).1.spawnCount = 2 ∧
    (startSync startedBridge).1.process = some 2 ∧
    (startSync startedBridge).1.messageId = startedBridge.messageId + 1 ∧
    (startSync startedBridge).1.pendingRequests = [3] := by
  decide

/-- **C3 (amended).** `start()` itself is unguarded: on an
already-started bridge it spawns a fresh child process (the spawn count
increments and the process handle is replaced by the new one) and
re-issues the handshake initialize request under a freshly allocated id
(the message-id counter advances and a new pending call is registered).
Duplicate starts are avoided only at `request()`'s call site — whose
`if (!this.process)` guard does not fire on a started bridge — and a
`request()` on a started bridge spawns nothing and keeps the process
handle. -/
theorem start_respawns_and_rehandshakes (st : BridgeState)
    (h : st.process ≠ none) :
    (startSync st).1.spawnCount = st.spawnCount + 1 ∧
    (startSync st).1.process = some (st.spawnCount + 1) ∧
    (startSync st).1.messageId = st.messageId + 1 ∧
    (startSync st).1.pendingRequests = st.pendingRequests ++ [st.messageId] ∧
    (startSync st).2 = st.messageId ∧
    (sendRequest st).1.process = st.process ∧
    (sendRequest st).1.spawnCount = st.spawnCount :=
  ⟨rfl, rfl, rfl, rfl, rfl, rfl, rfl⟩

/-- Witness for the amended C3 at the concrete started bridge. -/
theorem start_respawns_and_rehandshakes_witness :
    startedBridge.process ≠ none ∧
    ((startSync startedBridge).1.spawnCount = startedBridge.spawnCount + 1 ∧
     (startSync startedBridge).1.process = some (startedBridge.spawnCount + 1) ∧
     (startSync startedBridge).1.messageId = startedBridge.messageId + 1 ∧
     (startSync startedBridge).1.pendingRequests =
       startedBridge.pendingRequests ++ [startedBridge.messageId] ∧
     (startSync startedBridge).2 = startedBridge.messageId ∧
     (sendRequest startedBridge).1.process = startedBridge.process ∧
     (sendRequest startedBridge).1.spawnCount = startedBridge.spawnCount) :=
  ⟨by decide, start_respawns_and_rehandshakes startedBridge (by decide)⟩
